import Mathlib

/-!
Verification of the MAAS agent deployment core: the `Deploy` workflow and its
sub-flows (`AllocateIPs`, `DeployEphemeralOS`, `DeployInstalledOS`,
`checkAllBootAssets`, `checkForBootInterfaceLease`) from
`src/maasagent/internal/deploy/workflow.go`, the worker pool
(`AddWorker` / `RemoveWorkers`) from the worker package, and the
deploy-service `Configure` flow.

The embedding is a shallow one: remote operations (Temporal activities and
child workflows) are resolved against an explicit environment record holding
the result each external call would return, and signal channels are modelled
as the finite list of events delivered on them.  Each workflow function
returns its `Except` outcome together with the trace of external calls it
issued, in order.
-/

set_option maxRecDepth 2048

/-- IP addresses (`netip.Addr` in Go) are treated as opaque values. -/
abbrev Addr := String

/-- Errors of the Go code.  `failedDeployment` mirrors the `failDeployment`
wrapper (`fmt.Errorf("failed deployment for %s: %w", ...)` plus the extra
info strings); `external` stands for an arbitrary error produced by a remote
operation; `blocked` marks a signal wait that can never be satisfied by the
finite event list provided by the environment. -/
inductive GoErr where
  | errInvalidNodeStatus
  | errIPAllocationConflict
  | errInsufficientUserPermissions
  | errInvalidStorageConfig
  | errSignalClosed
  | errWorkerStartFailed
  | blocked
  | external (tag : Nat)
  | failedDeployment (systemID : String) (inner : GoErr) (info : List String)
  deriving DecidableEq, Repr

/-- `errors.Is`: does the error wrap (or equal) the target error? -/
def GoErr.is : GoErr → GoErr → Bool
  | .failedDeployment _ inner _, target =>
      (.failedDeployment "" inner [] == target) || inner.is target
  | e, target => e == target

/-- `failDeployment` from workflow.go: wrap the error with the system id and
any additional info strings. -/
def failDeployment (systemID : String) (err : GoErr) (additionalInfo : List String) : GoErr :=
  .failedDeployment systemID err additionalInfo

-- Node status constants (iota block in workflow.go).
def NodeStatusNew : Nat := 0
def NodeStatusCommissioning : Nat := 1
def NodeStatusFailedCommissioning : Nat := 2
def NodeStatusMissing : Nat := 3
def NodeStatusReady : Nat := 4
def NodeStatusReserved : Nat := 5
def NodeStatusDeployed : Nat := 6
def NodeStatusRetired : Nat := 7
def NodeStatusBroken : Nat := 8
def NodeStatusDeploying : Nat := 9
def NodeStatusAllocated : Nat := 10
def NodeStatusFailedDeployment : Nat := 11
def NodeStatusReleasing : Nat := 12
def NodeStatusFailedReleasing : Nat := 13
def NodeStatusRescueMode : Nat := 14
def NodeStatusEnteringRescueMode : Nat := 15
def NodeStatusFailedEnteringRescueMode : Nat := 16
def NodeStatusExitingRescueMode : Nat := 17
def NodeStatusFailedExitingRescueMode : Nat := 18
def NodeStatusTesting : Nat := 19
def NodeStatusFailedTesting : Nat := 20

structure AllocateIPsInput where
  SystemID : String
  deriving DecidableEq, Repr

structure ProposeIPResult where
  SystemID : String
  IPs : List Addr
  MACs : List String
  deriving DecidableEq, Repr

structure DeployInput where
  SystemID : String
  Queue : String
  Osystem : String
  DistroSeries : String
  HWEKernel : String
  UserData : String
  RequestingUserID : Int
  InstallKVM : Bool
  RegisterVMHost : Bool
  EnableHWSync : Bool
  EphemeralDeploy : Bool
  deriving DecidableEq, Repr

structure GetPowerParamsResult where
  PowerType : String
  deriving DecidableEq, Repr

structure SetDeployParamsResult where
  Osystem : String
  DistroSeries : String
  HWEKernel : String
  PowerState : String
  Status : Nat
  PreviousStatus : Nat
  EphemeralDeploy : Bool
  deriving DecidableEq, Repr

structure GetUserInfoResult where
  IsSuperuser : Bool
  deriving DecidableEq, Repr

structure CheckDiskStatusResult where
  Diskless : Bool
  deriving DecidableEq, Repr

/-- Modelled from the spec: the verify (`check-ip`) child workflow lives in a
part of the repository that is not among the sources (only its call site in
`AllocateIPs` is); per the spec it "checks which candidates are already
allocated elsewhere; returns that subset", modelled as the list of in-use
addresses. -/
structure CheckIPResult where
  IPs : List Addr
  deriving DecidableEq, Repr

structure LeaseSignal where
  SystemID : String
  IP : String
  MAC : String
  IsBootInterface : Bool
  deriving DecidableEq, Repr

/-- The externally visible calls a workflow run can issue (activities, child
workflow requests, power driver operations).  `claimIPs` records the exact
positional claim list and MAC list submitted; `updateNodeStatus` records the
`NodeStatusInput` fields (the Go code leaves `SystemID` at its zero value). -/
inductive Call where
  | getPowerParams (systemID : String)
  | getUserInfo (userID : Int)
  | checkDiskStatus (systemID : String)
  | setDeployParams (input : DeployInput)
  | proposeIP (systemID : String)
  | checkIP (ips : List Addr)
  | claimIPs (systemID : String) (ips : List (Option Addr)) (macs : List String)
  | powerOn (driverType : String)
  | powerCycle (driverType : String)
  | setBootOrder (systemID : String) (netboot : Bool)
  | updateNodeStatus (systemID : String) (status : Nat)
  deriving DecidableEq, Repr

def Call.isPower : Call → Bool
  | .powerOn _ => true
  | .powerCycle _ => true
  | _ => false

def Call.isUpdateNodeStatus : Call → Bool
  | .updateNodeStatus _ _ => true
  | _ => false

def Call.isAllocation : Call → Bool
  | .proposeIP _ => true
  | .checkIP _ => true
  | .claimIPs _ _ _ => true
  | _ => false

def Call.isCheckDiskStatus : Call → Bool
  | .checkDiskStatus _ => true
  | _ => false

def Call.isProposeIP : Call → Bool
  | .proposeIP _ => true
  | _ => false

/-- `checkForBootInterfaceLease`: receive on `leases:<id>` until a signal with
`IsBootInterface` arrives; non-boot-interface signals are ignored.  The channel
is modelled by the finite list of signals it will deliver; exhausting it means
the Go loop would block forever (`blocked`). -/
def checkForBootInterfaceLease : List LeaseSignal → Except GoErr Unit
  | [] => .error .blocked
  | s :: rest => if s.IsBootInterface then .ok () else checkForBootInterfaceLease rest

/-- One step of the inner `for i, bootasset := range bootAssets` loop of
`checkAllBootAssets`, acting on the backing array `arr` (whose length stays
that of the slice captured by `range`) and the current slice length `m`.
A match at `i` either shifts elements `i+1 .. m-1` left by one
(`append(bootAssets[:i], bootAssets[i+1:]...)`, positions from `m-1` keep
their stale values) or truncates the slice to length `i`
(`bootAssets = bootAssets[:i]`). -/
def innerStep (sig : String) (s : List String × Nat) (i : Nat) : List String × Nat :=
  if s.1.getD i "" = sig then
    if i < s.2 - 1 then
      (s.1.take i ++ (s.1.drop (i + 1)).take (s.2 - 1 - i) ++ s.1.drop (s.2 - 1), s.2 - 1)
    else
      (s.1, i)
  else s

/-- Processing of a single `boot-assets` signal by `checkAllBootAssets`: the
`range` loop iterates over the indices of the slice as captured at loop entry,
while the slice variable is mutated in place. -/
def checkStep (pending : List String) (sig : String) : List String :=
  let n := pending.length
  let s := (List.range n).foldl (innerStep sig) (pending, n)
  s.1.take s.2

/-- `checkAllBootAssets`: receive `boot-assets` events, removing matches from
the pending list, until the pending list is empty (checked after each
receive).  Returns the number of events consumed when the wait unblocks, or
`none` if the provided event list is exhausted first (the Go loop would stay
blocked on the channel). -/
def checkAllBootAssets : List String → List String → Option Nat
  | _, [] => none
  | pending, e :: es =>
      let p := checkStep pending e
      if p = [] then some 1 else (checkAllBootAssets p es).map (· + 1)

/-- `checkAllBootAssets` as used inside the OS-boot sub-flows: unblocking is
success, exhausting the event list means the wait never completes. -/
def checkAllBootAssetsE (pending : List String) (events : List String) : Except GoErr Unit :=
  match checkAllBootAssets pending events with
  | some _ => .ok ()
  | none => .error .blocked

structure AllocEnv where
  proposeIP : Except GoErr ProposeIPResult
  checkIP : Except GoErr CheckIPResult
  claimIPs : Except GoErr Unit
  deriving Repr

/-- `AllocateIPs`: propose, verify via the `check-ip` child workflow, then
submit one claim list positionally aligned with the candidate list — the
candidate where it was not reported in use, `none` (Go `nil`) where it was.
The Go code never sets `ClaimIPsInput.SystemID`, so the claim call carries the
zero value `""`. -/
def AllocateIPs (env : AllocEnv) (input : AllocateIPsInput) :
    Except GoErr Unit × List Call :=
  let t0 := [Call.proposeIP input.SystemID]
  match env.proposeIP with
  | .error e => (.error e, t0)
  | .ok proposed =>
      let checkIPInputIPs := proposed.IPs
      let t1 := t0 ++ [Call.checkIP checkIPInputIPs]
      match env.checkIP with
      | .error e => (.error e, t1)
      | .ok checkIPResult =>
          let claimList := checkIPInputIPs.map
            (fun ip => if ip ∈ checkIPResult.IPs then none else some ip)
          let t2 := t1 ++ [Call.claimIPs "" claimList proposed.MACs]
          match env.claimIPs with
          | .error e => (.error e, t2)
          | .ok _ => (.ok (), t2)

structure DeployEphemeralOSInput where
  SystemID : String
  PowerParams : GetPowerParamsResult
  DeployParams : SetDeployParamsResult
  deriving DecidableEq, Repr

structure DeployInstalledOSInput where
  SystemID : String
  PowerParams : GetPowerParamsResult
  DeployParams : SetDeployParamsResult
  deriving DecidableEq, Repr

structure EphemeralEnv where
  powerOn : Except GoErr Unit
  powerCycle : Except GoErr Unit
  leases : List LeaseSignal
  bootAssetEvents : List String
  curtinDownload : Except GoErr Unit
  curtinFinished : Except GoErr Unit
  deriving Repr

structure InstalledEnv where
  powerCycle : Except GoErr Unit
  leases : List LeaseSignal
  bootAssetEvents : List String
  cloudInitDownload : Except GoErr Unit
  cloudInitFinished : Except GoErr Unit
  deriving Repr

/-- `DeployEphemeralOS`: unless the power driver is `"manual"`, power-cycle if
the machine is on, else power-on; wait for a boot-interface lease; wait for
the OS/series image and the kernel boot assets; wait for the curtin download
and curtin finished signals. -/
def DeployEphemeralOS (env : EphemeralEnv) (input : DeployEphemeralOSInput) :
    Except GoErr Unit × List Call :=
  let step2 := fun (t : List Call) =>
    match checkForBootInterfaceLease env.leases with
    | .error e => (.error e, t)
    | .ok _ =>
        match checkAllBootAssetsE
            [input.DeployParams.Osystem ++ "/" ++ input.DeployParams.DistroSeries,
             input.DeployParams.HWEKernel] env.bootAssetEvents with
        | .error e => (.error e, t)
        | .ok _ =>
            match env.curtinDownload with
            | .error e => (.error e, t)
            | .ok _ =>
                match env.curtinFinished with
                | .error e => (.error e, t)
                | .ok _ => (.ok (), t)
  if input.PowerParams.PowerType ≠ "manual" then
    if input.DeployParams.PowerState = "on" then
      let t := [Call.powerCycle input.PowerParams.PowerType]
      match env.powerCycle with
      | .error e => (.error e, t)
      | .ok _ => step2 t
    else
      let t := [Call.powerOn input.PowerParams.PowerType]
      match env.powerOn with
      | .error e => (.error e, t)
      | .ok _ => step2 t
  else
    step2 []

/-- `DeployInstalledOS`: unless the power driver is `"manual"`, always
power-cycle; wait for a boot-interface lease; wait on the boot-asset channel
with an empty required list; wait for the cloud-init download and finished
signals. -/
def DeployInstalledOS (env : InstalledEnv) (input : DeployInstalledOSInput) :
    Except GoErr Unit × List Call :=
  let step2 := fun (t : List Call) =>
    match checkForBootInterfaceLease env.leases with
    | .error e => (.error e, t)
    | .ok _ =>
        match checkAllBootAssetsE [] env.bootAssetEvents with
        | .error e => (.error e, t)
        | .ok _ =>
            match env.cloudInitDownload with
            | .error e => (.error e, t)
            | .ok _ =>
                match env.cloudInitFinished with
                | .error e => (.error e, t)
                | .ok _ => (.ok (), t)
  if input.PowerParams.PowerType ≠ "manual" then
    let t := [Call.powerCycle input.PowerParams.PowerType]
    match env.powerCycle with
    | .error e => (.error e, t)
    | .ok _ => step2 t
  else
    step2 []

structure DeployEnv where
  getPowerParams : Except GoErr GetPowerParamsResult
  getUserInfo : Except GoErr GetUserInfoResult
  checkDiskStatus : Except GoErr CheckDiskStatusResult
  setDeployParams : Except GoErr SetDeployParamsResult
  alloc : AllocEnv
  ephemeral : EphemeralEnv
  setBootOrder : Except GoErr Unit
  installed : InstalledEnv
  updateNodeStatus : Except GoErr Unit
  deriving Repr

/-- The `Deploy` workflow.  Both precheck activities are issued before either
result is awaited (power parameters first, then user info); then the
KVM/VM-host permission guard, the disk check for non-ephemeral deploys, the
`set-deploy-params` call and its status guard, the `AllocateIPs` child
workflow, the ephemeral OS boot, for non-ephemeral deploys the boot-order
flip and the installed OS boot, and finally the `update-node-status` call
with status deployed. -/
def Deploy (env : DeployEnv) (input : DeployInput) : Except GoErr Unit × List Call :=
  let t0 := [Call.getPowerParams input.SystemID, Call.getUserInfo input.RequestingUserID]
  match env.getPowerParams with
  | .error e => (.error e, t0)
  | .ok powerParams =>
      match env.getUserInfo with
      | .error e => (.error e, t0)
      | .ok userInfo =>
          if (input.InstallKVM || input.RegisterVMHost) && !userInfo.IsSuperuser then
            (.error (failDeployment input.SystemID .errInsufficientUserPermissions
              ["you must be a MAAS administrator to deploy a machine as a MAAS-managed VM host"]), t0)
          else
            let diskChecked :=
              if !input.EphemeralDeploy then
                let t1 := t0 ++ [Call.checkDiskStatus input.SystemID]
                match env.checkDiskStatus with
                | .error e => Except.error (Except.error e, t1)
                | .ok diskStatus =>
                    if diskStatus.Diskless then
                      Except.error (Except.error (failDeployment input.SystemID
                        .errInvalidStorageConfig
                        ["cannot deploy to a disk in a diskless machine. Deploy to memory must be used instead."]), t1)
                    else Except.ok t1
              else Except.ok t0
            match diskChecked with
            | .error out => out
            | .ok t1 =>
                let t2 := t1 ++ [Call.setDeployParams input]
                match env.setDeployParams with
                | .error e => (.error e, t2)
                | .ok deployParams =>
                    if deployParams.Status ≠ NodeStatusReady ∧
                        deployParams.Status ≠ NodeStatusAllocated then
                      (.error (failDeployment input.SystemID .errInvalidNodeStatus []), t2)
                    else
                      match AllocateIPs env.alloc ⟨input.SystemID⟩ with
                      | (.error e, tA) => (.error e, t2 ++ tA)
                      | (.ok _, tA) =>
                          let t3 := t2 ++ tA
                          match DeployEphemeralOS env.ephemeral
                              ⟨input.SystemID, powerParams, deployParams⟩ with
                          | (.error e, tE) => (.error e, t3 ++ tE)
                          | (.ok _, tE) =>
                              let t4 := t3 ++ tE
                              let tail :=
                                if !input.EphemeralDeploy then
                                  let t5 := t4 ++ [Call.setBootOrder input.SystemID false]
                                  match env.setBootOrder with
                                  | .error e => Except.error (Except.error e, t5)
                                  | .ok _ =>
                                      match DeployInstalledOS env.installed
                                          ⟨input.SystemID, powerParams, deployParams⟩ with
                                      | (.error e, tI) => Except.error (Except.error e, t5 ++ tI)
                                      | (.ok _, tI) => Except.ok (t5 ++ tI)
                                else Except.ok t4
                              match tail with
                              | .error out => out
                              | .ok t6 =>
                                  let t7 := t6 ++ [Call.updateNodeStatus "" NodeStatusDeployed]
                                  match env.updateNodeStatus with
                                  | .error e => (.error e, t7)
                                  | .ok _ => (.ok (), t7)

structure PoolWorker where
  id : Nat
  taskQueue : String
  workflows : List String
  deriving DecidableEq, Repr

/-- The worker pool: the `workers` group map (`map[string][]worker.Worker` in
Go, as an association list preserving insertion order), the ids of the workers
that have been stopped, and a counter minting worker ids. -/
structure WorkerPool where
  workers : List (String × List PoolWorker)
  stopped : List Nat
  nextId : Nat
  deriving DecidableEq, Repr

def lookupGroup (g : String) (m : List (String × List PoolWorker)) : Option (List PoolWorker) :=
  match m.find? (fun e => e.1 == g) with
  | some e => some e.2
  | none => none

/-- `p.workers[group] = append(p.workers[group], w)`: append to the existing
entry, creating it when the key is absent. -/
def assocAppend (m : List (String × List PoolWorker)) (g : String) (w : PoolWorker) :
    List (String × List PoolWorker) :=
  match m with
  | [] => [(g, [w])]
  | e :: rest => if e.1 == g then (e.1, e.2 ++ [w]) :: rest else e :: assocAppend rest g w

/-- `AddWorker`: construct a worker bound to `taskQueue` with the given
workflow registrations and start it; on start failure return the error
without touching the group map, on success append the worker to `group`.
`startOK` stands for the outcome of `w.Start()`. -/
def AddWorker (p : WorkerPool) (group taskQueue : String) (workflows : List String)
    (startOK : Bool) : Except GoErr WorkerPool :=
  let w : PoolWorker := ⟨p.nextId, taskQueue, workflows⟩
  if startOK then
    .ok { workers := assocAppend p.workers group w,
          stopped := p.stopped,
          nextId := p.nextId + 1 }
  else .error .errWorkerStartFailed

/-- `RemoveWorkers`: if the group exists, stop every member and delete the
entry; otherwise do nothing. -/
def RemoveWorkers (p : WorkerPool) (group : String) : WorkerPool :=
  match lookupGroup group p.workers with
  | some ws =>
      { workers := p.workers.filter (fun e => !(e.1 == group)),
        stopped := p.stopped ++ ws.map (fun w => w.id),
        nextId := p.nextId }
  | none => p

def deployServiceWorkerPoolGroup : String := "deploy-service"

/-- The workflow table every deploy-capable worker is registered with. -/
def deployWorkflowTable : List String :=
  ["allocate-ip", "check-ip", "deploy", "deploy-ephemeral-os", "deploy-installed-os"]

/-- The per-VLAN loop of `Configure`: add one deploy-capable worker per VLAN
on the VLAN-scoped task queue; on any add failure, remove the whole group and
return the error.  `startOK i` is the start outcome of the i-th add of this
reconfiguration. -/
def configureLoop (p : WorkerPool) (vlans : List Int) (i : Nat) (startOK : Nat → Bool) :
    WorkerPool × Option GoErr :=
  match vlans with
  | [] => (p, none)
  | v :: rest =>
      match AddWorker p deployServiceWorkerPoolGroup
          ("agent:deploy@vlan-" ++ toString v) deployWorkflowTable (startOK i) with
      | .ok pNew => configureLoop pNew rest (i + 1) startOK
      | .error e => (RemoveWorkers p deployServiceWorkerPoolGroup, some e)

/-- `Configure` of the deploy service: unconditionally remove the existing
deploy-service group, fetch the agent VLANs from the controller, then add one
worker per VLAN.  Returns the resulting pool and the error, if any. -/
def Configure (p : WorkerPool) (vlansResult : Except GoErr (List Int))
    (startOK : Nat → Bool) : WorkerPool × Option GoErr :=
  let p1 := RemoveWorkers p deployServiceWorkerPoolGroup
  match vlansResult with
  | .error e => (p1, some e)
  | .ok vlans => configureLoop p1 vlans 0 startOK

/-! ## Helper lemmas about sub-flow traces -/

lemma allocateIPs_trace_allocation (env : AllocEnv) (input : AllocateIPsInput) :
    ∀ c ∈ (AllocateIPs env input).2, c.isAllocation = true := by
  unfold AllocateIPs
  rcases env.proposeIP with e | pr
  · simp [Call.isAllocation]
  · rcases env.checkIP with e | res
    · simp [Call.isAllocation]
    · rcases env.claimIPs with e | u <;>
        simp [Call.isAllocation]

lemma deployEphemeralOS_trace_power (env : EphemeralEnv) (input : DeployEphemeralOSInput) :
    ∀ c ∈ (DeployEphemeralOS env input).2, c.isPower = true := by
  intro c hc
  unfold DeployEphemeralOS at hc
  repeat' split at hc
  all_goals simp_all [Call.isPower]

lemma deployInstalledOS_trace_power (env : InstalledEnv) (input : DeployInstalledOSInput) :
    ∀ c ∈ (DeployInstalledOS env input).2, c.isPower = true := by
  intro c hc
  unfold DeployInstalledOS at hc
  repeat' split at hc
  all_goals simp_all [Call.isPower]

/-! ## Claim C2: positional alignment of the claim list -/

/-- Claim C2: whenever propose-ip returns a candidate list with its hardware
addresses and the check-ip verify sub-flow reports the in-use subset, the
list submitted to claim-ips has the length of the candidate list, holds
candidate i at position i when that candidate was not reported in use and the
explicit absent marker (`none`, Go `nil`) when it was, and the submitted
hardware-address list is the proposed one. -/
theorem allocateIPs_claim_list_alignment
    (env : AllocEnv) (input : AllocateIPsInput) (pr : ProposeIPResult)
    (res : CheckIPResult)
    (hp : env.proposeIP = .ok pr) (hc : env.checkIP = .ok res) :
    (AllocateIPs env input).2 =
      [Call.proposeIP input.SystemID, Call.checkIP pr.IPs,
       Call.claimIPs ""
         (pr.IPs.map fun ip => if ip ∈ res.IPs then none else some ip) pr.MACs] ∧
    (pr.IPs.map fun ip => if ip ∈ res.IPs then none else some ip).length = pr.IPs.length ∧
    (∀ i ip, pr.IPs.get? i = some ip →
      (pr.IPs.map fun ip => if ip ∈ res.IPs then none else some ip).get? i =
        some (if ip ∈ res.IPs then none else some ip)) := by
  refine ⟨?_, by simp, ?_⟩
  · unfold AllocateIPs
    rcases hcl : env.claimIPs with e | u <;> simp [hp, hc, hcl]
  · intro i ip hip
    simp only [List.get?_eq_getElem?] at hip
    simp [List.getElem?_map, hip]

def allocEnvExample : AllocEnv :=
  { proposeIP := .ok { SystemID := "m1", IPs := ["10.0.0.1", "10.0.0.2"], MACs := ["aa:aa", "bb:bb"] },
    checkIP := .ok { IPs := ["10.0.0.2"] },
    claimIPs := .ok () }

/-- Witness for C2 at a concrete run: candidates `[A, B]`, verify reports `B`
in use, the claim list submitted is `[some A, none]` with the proposed MAC
list. -/
theorem allocateIPs_claim_list_alignment_witness :
    (AllocateIPs allocEnvExample ⟨"m1"⟩).2 =
      [Call.proposeIP "m1", Call.checkIP ["10.0.0.1", "10.0.0.2"],
       Call.claimIPs "" [some "10.0.0.1", none] ["aa:aa", "bb:bb"]] := by
  have h := allocateIPs_claim_list_alignment allocEnvExample ⟨"m1"⟩
    { SystemID := "m1", IPs := ["10.0.0.1", "10.0.0.2"], MACs := ["aa:aa", "bb:bb"] }
    { IPs := ["10.0.0.2"] } rfl rfl
  have h1 := h.1
  simp only [List.map] at h1
  convert h1 using 4

/-! ## Claim C3: no allocation-conflict error is surfaced -/

/-- Counterexample to claim C3 as stated: a run in which the verify step
reports a proposed address already taken, yet `AllocateIPs` surfaces no error
at all — it returns success, contradicting that an allocation-conflict error
class is surfaced. -/
theorem allocateIPs_conflict_counterexample :
    (AllocateIPs allocEnvExample ⟨"m1"⟩).1 = .ok () ∧
    ¬ (∃ e, (AllocateIPs allocEnvExample ⟨"m1"⟩).1 = .error e ∧
        e.is .errIPAllocationConflict = true) := by
  constructor
  · rfl
  · rintro ⟨e, he, -⟩
    rw [show (AllocateIPs allocEnvExample ⟨"m1"⟩).1 = .ok () from rfl] at he
    exact Except.noConfusion he

/-- Claim C3 amended: when the verify step reports at least one proposed
address already taken, `AllocateIPs` does not surface the allocation-conflict
error (the declared `ErrIPAllocationConflict` is never returned): the taken
candidates become absent markers and the run proceeds to the claim call and
succeeds when claim-ips succeeds; the component never retries with a new
proposal (exactly one propose-ip call per run), and every error it returns is
a propagated remote-operation or sub-flow error. -/
theorem allocateIPs_conflict_not_surfaced
    (env : AllocEnv) (input : AllocateIPsInput) (pr : ProposeIPResult)
    (res : CheckIPResult)
    (hp : env.proposeIP = .ok pr) (hc : env.checkIP = .ok res)
    (hne : res.IPs ≠ []) (hcl : env.claimIPs = .ok ()) :
    (AllocateIPs env input).1 = .ok () ∧
    ((AllocateIPs env input).2.filter Call.isProposeIP).length = 1 ∧
    (∀ (env2 : AllocEnv) (input2 : AllocateIPsInput) (e : GoErr),
      (AllocateIPs env2 input2).1 = .error e →
        env2.proposeIP = .error e ∨ env2.checkIP = .error e ∨ env2.claimIPs = .error e) := by
  refine ⟨?_, ?_, ?_⟩
  · unfold AllocateIPs
    simp [hp, hc, hcl]
  · unfold AllocateIPs
    simp [hp, hc, hcl, Call.isProposeIP]
  · intro env2 input2 e he
    unfold AllocateIPs at he
    rcases h1 : env2.proposeIP with e1 | pr2 <;> simp [h1] at he
    · exact Or.inl (by rw [he])
    · rcases h2 : env2.checkIP with e2 | res2 <;> simp [h2] at he
      · exact Or.inr (Or.inl (by rw [he]))
      · rcases h3 : env2.claimIPs with e3 | u <;> simp [h3] at he
        exact Or.inr (Or.inr (by rw [he]))

/-- Witness for the amended C3: on the concrete conflicting run the result is
success and exactly one propose call was made. -/
theorem allocateIPs_conflict_not_surfaced_witness :
    (AllocateIPs allocEnvExample ⟨"m1"⟩).1 = .ok () ∧
    ((AllocateIPs allocEnvExample ⟨"m1"⟩).2.filter Call.isProposeIP).length = 1 := by
  have h := allocateIPs_conflict_not_surfaced allocEnvExample ⟨"m1"⟩
    { SystemID := "m1", IPs := ["10.0.0.1", "10.0.0.2"], MACs := ["aa:aa", "bb:bb"] }
    { IPs := ["10.0.0.2"] } rfl rfl (by decide) rfl
  exact ⟨h.1, h.2.1⟩

/-! ## Concrete example environments for witnesses -/

def ephemeralEnvExample : EphemeralEnv :=
  { powerOn := .ok (), powerCycle := .ok (),
    leases := [⟨"m1", "10.0.0.1", "aa:aa", true⟩],
    bootAssetEvents := ["ubuntu/focal", "hwe-22.04"],
    curtinDownload := .ok (), curtinFinished := .ok () }

def installedEnvExample : InstalledEnv :=
  { powerCycle := .ok (),
    leases := [⟨"m1", "10.0.0.1", "aa:aa", true⟩],
    bootAssetEvents := ["anything"],
    cloudInitDownload := .ok (), cloudInitFinished := .ok () }

def deployParamsExample (status : Nat) : SetDeployParamsResult :=
  { Osystem := "ubuntu", DistroSeries := "focal", HWEKernel := "hwe-22.04",
    PowerState := "off", Status := status, PreviousStatus := NodeStatusAllocated,
    EphemeralDeploy := false }

def deployEnvExample (superuser diskless : Bool) (status : Nat) : DeployEnv :=
  { getPowerParams := .ok ⟨"ipmi"⟩,
    getUserInfo := .ok ⟨superuser⟩,
    checkDiskStatus := .ok ⟨diskless⟩,
    setDeployParams := .ok (deployParamsExample status),
    alloc := allocEnvExample,
    ephemeral := ephemeralEnvExample,
    setBootOrder := .ok (),
    installed := installedEnvExample,
    updateNodeStatus := .ok () }

def deployInputExample (kvm eph : Bool) : DeployInput :=
  { SystemID := "m1", Queue := "q", Osystem := "ubuntu", DistroSeries := "focal",
    HWEKernel := "hwe-22.04", UserData := "", RequestingUserID := 7,
    InstallKVM := kvm, RegisterVMHost := false, EnableHWSync := false,
    EphemeralDeploy := eph }

/-! ## Claim C4: KVM install by a non-superuser fails before any power call -/

/-- Claim C4: with the install-KVM or register-VM-host flag set and
get-user-info reporting a non-superuser, Deploy fails with the
insufficient-permissions error (wrapped by failDeployment) and its trace
contains no power-on or power-cycle call. -/
theorem deploy_kvm_nonsuperuser_fails_no_power
    (env : DeployEnv) (input : DeployInput) (pp : GetPowerParamsResult)
    (hpp : env.getPowerParams = .ok pp)
    (hui : env.getUserInfo = .ok ⟨false⟩)
    (hkvm : input.InstallKVM = true ∨ input.RegisterVMHost = true) :
    (Deploy env input).1 = .error (failDeployment input.SystemID
      .errInsufficientUserPermissions
      ["you must be a MAAS administrator to deploy a machine as a MAAS-managed VM host"]) ∧
    (∀ c ∈ (Deploy env input).2, c.isPower = false) := by
  unfold Deploy
  rcases hkvm with h | h <;>
    simp [hpp, hui, h, Call.isPower]

/-- Witness for C4: a concrete KVM-install request by a non-superuser. -/
theorem deploy_kvm_nonsuperuser_fails_no_power_witness :
    (Deploy (deployEnvExample false false NodeStatusReady) (deployInputExample true false)).1 =
      .error (failDeployment "m1" .errInsufficientUserPermissions
        ["you must be a MAAS administrator to deploy a machine as a MAAS-managed VM host"]) ∧
    (∀ c ∈ (Deploy (deployEnvExample false false NodeStatusReady)
        (deployInputExample true false)).2, c.isPower = false) :=
  deploy_kvm_nonsuperuser_fails_no_power _ _ ⟨"ipmi"⟩ rfl rfl (Or.inl rfl)

lemma isAllocation_not_disk {c : Call} (h : c.isAllocation = true) :
    c.isCheckDiskStatus = false := by
  cases c <;> simp_all [Call.isAllocation, Call.isCheckDiskStatus]

lemma isPower_not_disk {c : Call} (h : c.isPower = true) :
    c.isCheckDiskStatus = false := by
  cases c <;> simp_all [Call.isPower, Call.isCheckDiskStatus]

/-- In an ephemeral deploy the disk-status check is skipped entirely: no run,
whatever the environment, issues a check-disk-status call. -/
lemma deploy_trace_no_disk (env : DeployEnv) (input : DeployInput)
    (h : input.EphemeralDeploy = true) :
    ∀ c ∈ (Deploy env input).2, c.isCheckDiskStatus = false := by
  intro c hc
  unfold Deploy at hc
  simp only [h, Bool.not_true, Bool.false_eq_true, if_false] at hc
  rcases hpp : env.getPowerParams with e | pp <;> simp only [hpp] at hc
  · simp at hc; rcases hc with rfl | rfl <;> rfl
  rcases hui : env.getUserInfo with e | ui <;> simp only [hui] at hc
  · simp at hc; rcases hc with rfl | rfl <;> rfl
  by_cases hg : ((input.InstallKVM || input.RegisterVMHost) && !ui.IsSuperuser) = true
  · rw [if_pos hg] at hc
    simp at hc; rcases hc with rfl | rfl <;> rfl
  rw [if_neg hg] at hc
  rcases hsd : env.setDeployParams with e | dp <;> simp only [hsd] at hc
  · simp at hc; rcases hc with rfl | rfl | rfl <;> rfl
  by_cases hst : dp.Status ≠ NodeStatusReady ∧ dp.Status ≠ NodeStatusAllocated
  · rw [if_pos hst] at hc
    simp at hc; rcases hc with rfl | rfl | rfl <;> rfl
  rw [if_neg hst] at hc
  rcases hA : AllocateIPs env.alloc ⟨input.SystemID⟩ with ⟨rA, tA⟩
  have hAmem : ∀ x ∈ tA, x.isAllocation = true := by
    have h2 := allocateIPs_trace_allocation env.alloc ⟨input.SystemID⟩
    rwa [hA] at h2
  rcases rA with eA | uA <;> simp only [hA] at hc
  · simp at hc
    rcases hc with rfl | rfl | rfl | hmem
    · rfl
    · rfl
    · rfl
    · exact isAllocation_not_disk (hAmem c hmem)
  rcases hE : DeployEphemeralOS env.ephemeral ⟨input.SystemID, pp, dp⟩ with ⟨rE, tE⟩
  have hEmem : ∀ x ∈ tE, x.isPower = true := by
    have h2 := deployEphemeralOS_trace_power env.ephemeral ⟨input.SystemID, pp, dp⟩
    rwa [hE] at h2
  rcases rE with eE | uE <;> simp only [hE] at hc
  · simp at hc
    rcases hc with rfl | rfl | rfl | hmem | hmem
    · rfl
    · rfl
    · rfl
    · exact isAllocation_not_disk (hAmem c hmem)
    · exact isPower_not_disk (hEmem c hmem)
  rcases hu : env.updateNodeStatus with e | u <;> simp only [hu] at hc <;>
  · simp at hc
    rcases hc with rfl | rfl | rfl | hmem | hmem | rfl
    · rfl
    · rfl
    · rfl
    · exact isAllocation_not_disk (hAmem c hmem)
    · exact isPower_not_disk (hEmem c hmem)
    · rfl

/-! ## Claim C5: diskless non-ephemeral deploys fail before allocation -/

/-- Claim C5: a non-ephemeral deploy whose disk check reports diskless fails
with the invalid-storage-configuration error and its trace contains no
propose-ip, check-ip or claim-ips call; and for every ephemeral deploy the
disk-status check is skipped entirely (no check-disk-status call in any run,
so the disk-validation failure cannot occur there). -/
theorem deploy_diskless_nonephemeral_fails_before_alloc
    (env : DeployEnv) (input : DeployInput) (pp : GetPowerParamsResult)
    (ui : GetUserInfoResult)
    (heph : input.EphemeralDeploy = false)
    (hpp : env.getPowerParams = .ok pp)
    (hui : env.getUserInfo = .ok ui)
    (hguard : ((input.InstallKVM || input.RegisterVMHost) && !ui.IsSuperuser) = false)
    (hdisk : env.checkDiskStatus = .ok ⟨true⟩) :
    (Deploy env input).1 = .error (failDeployment input.SystemID .errInvalidStorageConfig
      ["cannot deploy to a disk in a diskless machine. Deploy to memory must be used instead."]) ∧
    (∀ c ∈ (Deploy env input).2, c.isAllocation = false) ∧
    (∀ (env2 : DeployEnv) (input2 : DeployInput), input2.EphemeralDeploy = true →
      ∀ c ∈ (Deploy env2 input2).2, c.isCheckDiskStatus = false) := by
  refine ⟨?_, ?_, fun env2 input2 h2 => deploy_trace_no_disk env2 input2 h2⟩ <;>
  · unfold Deploy
    simp [hpp, hui, hguard, heph, hdisk, Call.isAllocation]

/-- Witness for C5: a concrete non-ephemeral deploy of a diskless machine. -/
theorem deploy_diskless_nonephemeral_fails_witness :
    (Deploy (deployEnvExample true true NodeStatusReady) (deployInputExample false false)).1 =
      .error (failDeployment "m1" .errInvalidStorageConfig
        ["cannot deploy to a disk in a diskless machine. Deploy to memory must be used instead."]) ∧
    (∀ c ∈ (Deploy (deployEnvExample true true NodeStatusReady)
        (deployInputExample false false)).2, c.isAllocation = false) := by
  have h := deploy_diskless_nonephemeral_fails_before_alloc
    (deployEnvExample true true NodeStatusReady) (deployInputExample false false)
    ⟨"ipmi"⟩ ⟨true⟩ rfl rfl rfl rfl rfl
  exact ⟨h.1, h.2.1⟩

/-! ## Claim C6: invalid node status aborts before any side effect -/

/-- Claim C6: when set-deploy-params reports a status that is neither ready
nor allocated, Deploy fails with the invalid-node-status error and its trace
contains no allocation call, no power call and no node-status update. -/
theorem deploy_invalid_status_fails_no_side_effects
    (env : DeployEnv) (input : DeployInput) (pp : GetPowerParamsResult)
    (ui : GetUserInfoResult) (dp : SetDeployParamsResult)
    (hpp : env.getPowerParams = .ok pp)
    (hui : env.getUserInfo = .ok ui)
    (hguard : ((input.InstallKVM || input.RegisterVMHost) && !ui.IsSuperuser) = false)
    (hdisk : input.EphemeralDeploy = true ∨ env.checkDiskStatus = .ok ⟨false⟩)
    (hsd : env.setDeployParams = .ok dp)
    (h1 : dp.Status ≠ NodeStatusReady)
    (h2 : dp.Status ≠ NodeStatusAllocated) :
    (Deploy env input).1 =
      .error (failDeployment input.SystemID .errInvalidNodeStatus []) ∧
    ∀ c ∈ (Deploy env input).2,
      c.isAllocation = false ∧ c.isPower = false ∧ c.isUpdateNodeStatus = false := by
  by_cases heph : input.EphemeralDeploy = true
  · unfold Deploy
    simp [hpp, hui, hguard, heph, hsd, h1, h2,
      Call.isAllocation, Call.isPower, Call.isUpdateNodeStatus]
  · have hdisk2 : env.checkDiskStatus = .ok ⟨false⟩ := hdisk.resolve_left heph
    have heph2 : input.EphemeralDeploy = false := by
      revert heph; cases input.EphemeralDeploy <;> simp
    unfold Deploy
    simp [hpp, hui, hguard, heph2, hdisk2, hsd, h1, h2,
      Call.isAllocation, Call.isPower, Call.isUpdateNodeStatus]

/-- Witness for C6: a concrete run in which set-deploy-params reports status
deploying. -/
theorem deploy_invalid_status_fails_witness :
    (Deploy (deployEnvExample true false NodeStatusDeploying) (deployInputExample false false)).1 =
      .error (failDeployment "m1" .errInvalidNodeStatus []) ∧
    ∀ c ∈ (Deploy (deployEnvExample true false NodeStatusDeploying)
        (deployInputExample false false)).2,
      c.isAllocation = false ∧ c.isPower = false ∧ c.isUpdateNodeStatus = false :=
  deploy_invalid_status_fails_no_side_effects
    (deployEnvExample true false NodeStatusDeploying) (deployInputExample false false)
    ⟨"ipmi"⟩ ⟨true⟩ (deployParamsExample NodeStatusDeploying) rfl rfl rfl
    (Or.inr rfl) rfl (by decide) (by decide)

/-! ## Worker pool lemmas -/

lemma lookupGroup_erase (g : String) (m : List (String × List PoolWorker)) :
    lookupGroup g (m.filter (fun e => !(e.1 == g))) = none := by
  induction m with
  | nil => rfl
  | cons e rest ih =>
      by_cases h : e.1 == g
      · simpa [List.filter_cons, h] using ih
      · simp only [List.filter_cons, h, Bool.not_false, if_true]
        simpa [lookupGroup, List.find?, h] using ih

lemma lookupGroup_remove (p : WorkerPool) (g : String) :
    lookupGroup g (RemoveWorkers p g).workers = none := by
  unfold RemoveWorkers
  rcases h : lookupGroup g p.workers with _ | ws
  · simpa using h
  · simpa using lookupGroup_erase g p.workers

lemma configureLoop_fail (vlans : List Int) (p : WorkerPool) (i0 : Nat)
    (startOK : Nat → Bool)
    (hfail : ∃ j, j < vlans.length ∧ startOK (i0 + j) = false) :
    lookupGroup deployServiceWorkerPoolGroup
      (configureLoop p vlans i0 startOK).1.workers = none := by
  induction vlans generalizing p i0 with
  | nil =>
      rcases hfail with ⟨j, hj, _⟩
      exact absurd hj (by simp)
  | cons v rest ih =>
      rcases hfail with ⟨j, hj, hf⟩
      by_cases h0 : startOK i0 = true
      · have hj0 : j ≠ 0 := by
          rintro rfl
          rw [Nat.add_zero] at hf
          rw [h0] at hf
          exact Bool.noConfusion hf
        obtain ⟨j2, rfl⟩ : ∃ j2, j = j2 + 1 := ⟨j - 1, by omega⟩
        simp only [configureLoop, AddWorker, h0, if_true]
        refine ih _ _ ⟨j2, ?_, ?_⟩
        · simpa using Nat.lt_of_succ_lt_succ hj
        · have h3 : i0 + (j2 + 1) = (i0 + 1) + j2 := by omega
          rwa [h3] at hf
      · have h0f : startOK i0 = false := by
          revert h0; cases startOK i0 <;> simp
        simp only [configureLoop, AddWorker, h0f, Bool.false_eq_true, if_false]
        exact lookupGroup_remove p deployServiceWorkerPoolGroup

/-! ## Claim C10: worker-group state is never left partially torn down -/

/-- Claim C10: RemoveWorkers stops every member of the group and deletes the
entry; RemoveWorkers on an absent group (in particular a second consecutive
call) is a no-op; an AddWorker whose worker fails to start returns the error
without producing any new pool state; and a Configure rebuild in which some
AddWorker fails leaves the deploy-service group absent (empty) for that
attempt. -/
theorem workerPool_group_atomicity :
    (∀ (p : WorkerPool) (g : String) (ws : List PoolWorker),
      lookupGroup g p.workers = some ws →
        lookupGroup g (RemoveWorkers p g).workers = none ∧
        ∀ w ∈ ws, w.id ∈ (RemoveWorkers p g).stopped) ∧
    (∀ (p : WorkerPool) (g : String),
      lookupGroup g p.workers = none → RemoveWorkers p g = p) ∧
    (∀ (p : WorkerPool) (g : String),
      RemoveWorkers (RemoveWorkers p g) g = RemoveWorkers p g) ∧
    (∀ (p : WorkerPool) (g q : String) (wf : List String),
      AddWorker p g q wf false = .error .errWorkerStartFailed) ∧
    (∀ (p : WorkerPool) (vlans : List Int) (startOK : Nat → Bool),
      (∃ j, j < vlans.length ∧ startOK j = false) →
        lookupGroup deployServiceWorkerPoolGroup
          (Configure p (.ok vlans) startOK).1.workers = none) := by
  refine ⟨?_, ?_, ?_, ?_, ?_⟩
  · intro p g ws hws
    refine ⟨lookupGroup_remove p g, ?_⟩
    intro w hw
    unfold RemoveWorkers
    rw [hws]
    simp
    exact Or.inr ⟨w, hw, rfl⟩
  · intro p g h
    unfold RemoveWorkers
    rw [h]
  · intro p g
    rcases h : lookupGroup g p.workers with _ | ws
    · have h2 : RemoveWorkers p g = p := by unfold RemoveWorkers; rw [h]
      rw [h2]
      exact h2
    · conv_lhs => rw [RemoveWorkers]
      rw [lookupGroup_remove p g]
  · intro p g q wf
    rfl
  · intro p vlans startOK hfail
    unfold Configure
    exact configureLoop_fail vlans _ 0 startOK (by simpa using hfail)

/-- Witness for C10: a concrete pool with one deploy-service worker; removal
empties and stops it, double removal is stable, a failing add errors, and a
rebuild with a failing second add leaves the group absent. -/
theorem workerPool_group_atomicity_witness :
    (lookupGroup "deploy-service"
        (RemoveWorkers ⟨[("deploy-service", [⟨0, "q0", []⟩])], [], 1⟩ "deploy-service").workers
      = none ∧
      ∀ w ∈ [(⟨0, "q0", []⟩ : PoolWorker)],
        w.id ∈ (RemoveWorkers ⟨[("deploy-service", [⟨0, "q0", []⟩])], [], 1⟩ "deploy-service").stopped) ∧
    RemoveWorkers (RemoveWorkers ⟨[("deploy-service", [⟨0, "q0", []⟩])], [], 1⟩ "deploy-service")
        "deploy-service"
      = RemoveWorkers ⟨[("deploy-service", [⟨0, "q0", []⟩])], [], 1⟩ "deploy-service" ∧
    AddWorker ⟨[], [], 0⟩ "deploy-service" "q1" [] false = .error .errWorkerStartFailed ∧
    lookupGroup deployServiceWorkerPoolGroup
        (Configure ⟨[], [], 0⟩ (.ok [10, 20]) (fun j => j == 0)).1.workers = none := by
  refine ⟨workerPool_group_atomicity.1 _ "deploy-service" _ rfl, ?_, ?_, ?_⟩
  · exact workerPool_group_atomicity.2.2.1 _ "deploy-service"
  · exact workerPool_group_atomicity.2.2.2.1 _ "deploy-service" "q1" []
  · exact workerPool_group_atomicity.2.2.2.2 _ [10, 20] _ ⟨1, by decide, by decide⟩

/-! ## Claim C9: reconfiguration result of the deploy-service group -/

def poolExample : WorkerPool :=
  { workers := [(deployServiceWorkerPoolGroup, [⟨0, "agent:deploy@vlan-5", deployWorkflowTable⟩])],
    stopped := [],
    nextId := 1 }

/-- Evaluation of Configure at segment set `[10, 20]` against a pool holding a
stale deploy-service worker from a previous configuration: the stale worker is
stopped and the resulting group holds exactly the two VLAN-scoped workers —
and no additional worker on any common fallback queue, although the code
comment announces one. -/
theorem configure_no_fallback_worker_eval :
    Configure poolExample (.ok [10, 20]) (fun _ => true) =
      ({ workers := [(deployServiceWorkerPoolGroup,
            [⟨1, "agent:deploy@vlan-10", deployWorkflowTable⟩,
             ⟨2, "agent:deploy@vlan-20", deployWorkflowTable⟩])],
         stopped := [0],
         nextId := 3 }, none) ∧
    (lookupGroup deployServiceWorkerPoolGroup
        (Configure poolExample (.ok [10, 20]) (fun _ => true)).1.workers).map
      (fun ws => ws.map (fun w => w.taskQueue)) =
      some ["agent:deploy@vlan-10", "agent:deploy@vlan-20"] := by
  constructor <;> decide

/-! ## Boot-asset wait: the per-signal step removes exactly the matching asset -/

lemma foldl_innerStep_no_match (sig : String) (l : List Nat) (arr : List String) (m : Nat)
    (h : ∀ i ∈ l, arr.getD i "" ≠ sig) :
    l.foldl (innerStep sig) (arr, m) = (arr, m) := by
  induction l with
  | nil => rfl
  | cons i rest ih =>
      rw [List.foldl_cons]
      have h1 : innerStep sig (arr, m) i = (arr, m) := by
        unfold innerStep
        rw [if_neg (h i (List.mem_cons_self i rest))]
      rw [h1]
      exact ih fun i2 hi2 => h i2 (List.mem_cons_of_mem i hi2)

lemma checkStep_not_mem (pending : List String) (sig : String) (h : sig ∉ pending) :
    checkStep pending sig = pending := by
  simp only [checkStep]
  rw [foldl_innerStep_no_match]
  · simp
  · intro i hi heq
    rw [List.mem_range] at hi
    rw [List.getD_eq_getElem pending "" hi] at heq
    exact h (heq ▸ List.getElem_mem hi)

lemma checkStep_erase (pending : List String) (sig : String) (hnd : pending.Nodup) :
    checkStep pending sig = pending.erase sig := by
  by_cases hmem : sig ∈ pending
  case neg =>
    rw [checkStep_not_mem pending sig hmem, List.erase_of_not_mem hmem]
  case pos =>
  obtain ⟨j, hj, hgetj⟩ := List.mem_iff_getElem.mp hmem
  have huniq : ∀ (i : Nat) (hi : i < pending.length), i ≠ j → pending.get ⟨i, hi⟩ ≠ sig := by
    intro i hi hne heq
    have h2 : pending.get ⟨i, hi⟩ = pending.get ⟨j, hj⟩ := by
      rw [heq]
      simpa using hgetj.symm
    have h3 := (List.Nodup.get_inj_iff hnd).mp h2
    exact hne (congrArg Fin.val h3)
  have hcond : pending.getD j "" = sig := by
    rw [List.getD_eq_getElem pending "" hj]
    exact hgetj
  have hsplit2 : pending.take j ++ sig :: pending.drop (j + 1) = pending := by
    conv_rhs => rw [← List.take_append_drop j pending]
    rw [List.drop_eq_getElem_cons hj, hgetj]
  have hjtl : (List.take j pending).length = j := by
    rw [List.length_take]
    omega
  have hnotin : sig ∉ pending.take j := by
    intro hin
    obtain ⟨i, hi, hgeti⟩ := List.mem_iff_getElem.mp hin
    have hij : i < j := by
      rw [hjtl] at hi
      exact hi
    rw [List.getElem_take] at hgeti
    exact huniq i (by omega) (by omega) (by simpa using hgeti)
  have herase : pending.erase sig = pending.take j ++ pending.drop (j + 1) := by
    conv_lhs => rw [← hsplit2]
    rw [List.erase_append_right _ hnotin, List.erase_cons_head]
  have hsplit : List.range' 0 j ++ List.range' j 1 ++
      List.range' (j + 1) (pending.length - (j + 1)) = List.range pending.length := by
    rw [List.range_eq_range']
    have ha := List.range'_append 0 j 1 1
    have hb := List.range'_append 0 (j + 1) (pending.length - (j + 1)) 1
    simp only [Nat.one_mul, Nat.zero_add] at ha hb
    rw [show (1 : Nat) + j = j + 1 from Nat.add_comm 1 j] at ha
    rw [ha, hb]
    congr 1
    omega
  have hAfold : (List.range' 0 j).foldl (innerStep sig) (pending, pending.length) =
      (pending, pending.length) := by
    apply foldl_innerStep_no_match
    intro i hi heq
    rw [List.mem_range'_1] at hi
    have hin : i < pending.length := by omega
    rw [List.getD_eq_getElem pending "" hin] at heq
    exact huniq i hin (by omega) (by simpa using heq)
  by_cases hjl : j < pending.length - 1
  · -- the matching asset is not the last one: elements shift left in place
    have hBstep : innerStep sig (pending, pending.length) j =
        (pending.take j ++ pending.drop (j + 1) ++ pending.drop (pending.length - 1),
         pending.length - 1) := by
      simp only [innerStep]
      rw [if_pos hcond, if_pos hjl]
      have hlen : pending.length - 1 - j = (pending.drop (j + 1)).length := by
        rw [List.length_drop]
        omega
      rw [hlen, List.take_length]
    have hBlen : (pending.take j ++ pending.drop (j + 1)).length = pending.length - 1 := by
      rw [List.length_append, hjtl, List.length_drop]
      omega
    have hCfold : (List.range' (j + 1) (pending.length - (j + 1))).foldl (innerStep sig)
        (pending.take j ++ pending.drop (j + 1) ++ pending.drop (pending.length - 1),
         pending.length - 1) =
        (pending.take j ++ pending.drop (j + 1) ++ pending.drop (pending.length - 1),
         pending.length - 1) := by
      apply foldl_innerStep_no_match
      intro i hi heq
      rw [List.mem_range'_1] at hi
      have hiub : i < pending.length := by omega
      rw [List.getD_eq_getElem?_getD] at heq
      by_cases hieq : i < pending.length - 1
      · rw [List.getElem?_append, hBlen, if_pos hieq,
          List.getElem?_append_right (by rw [hjtl]; omega), hjtl,
          List.getElem?_drop] at heq
        have hidx : j + 1 + (i - j) = i + 1 := by omega
        rw [hidx, List.getElem?_eq_getElem (by omega)] at heq
        simp only [Option.getD_some] at heq
        exact huniq (i + 1) (by omega) (by omega) (by simpa using heq)
      · rw [List.getElem?_append_right (by rw [hBlen]; omega), hBlen,
          List.getElem?_drop] at heq
        have hidx : pending.length - 1 + (i - (pending.length - 1)) = i := by omega
        rw [hidx, List.getElem?_eq_getElem hiub] at heq
        simp only [Option.getD_some] at heq
        exact huniq i hiub (by omega) (by simpa using heq)
    simp only [checkStep]
    rw [← hsplit, List.foldl_append, List.foldl_append, hAfold, List.range'_one,
      List.foldl_cons, List.foldl_nil, hBstep, hCfold, herase]
    show List.take (pending.length - 1)
        ((pending.take j ++ pending.drop (j + 1)) ++ pending.drop (pending.length - 1)) =
      pending.take j ++ pending.drop (j + 1)
    rw [← hBlen, List.take_left]
  · -- the matching asset is the last live element: the slice is truncated
    have hBstep : innerStep sig (pending, pending.length) j = (pending, j) := by
      simp only [innerStep]
      rw [if_pos hcond, if_neg hjl]
    have hCempty : pending.length - (j + 1) = 0 := by omega
    simp only [checkStep]
    rw [← hsplit, List.foldl_append, List.foldl_append, hAfold, List.range'_one,
      List.foldl_cons, List.foldl_nil, hBstep, hCempty, List.range'_zero,
      List.foldl_nil, herase]
    have hdropn : pending.drop (j + 1) = [] := by
      have hj1 : j + 1 = pending.length := by omega
      rw [hj1, List.drop_length]
    rw [hdropn, List.append_nil]

lemma foldl_checkStep_filter (evts : List String) :
    ∀ pending : List String, pending.Nodup →
      evts.foldl checkStep pending = pending.filter (fun a => !(evts.contains a)) := by
  induction evts with
  | nil => intro pending _; simp
  | cons e es ih =>
      intro pending hnd
      rw [List.foldl_cons, checkStep_erase pending e hnd, ih _ (hnd.erase e),
        List.Nodup.erase_eq_filter hnd e, List.filter_filter]
      apply List.filter_congr
      intro a _
      simp only [List.contains_cons, Bool.not_or, bne]
      rw [Bool.and_comm]

lemma checkAllBootAssets_sound (evts : List String) :
    ∀ (pending : List String) (k : Nat),
      checkAllBootAssets pending evts = some k →
      1 ≤ k ∧ k ≤ evts.length ∧ (evts.take k).foldl checkStep pending = [] ∧
      ∀ j, 1 ≤ j → j < k → (evts.take j).foldl checkStep pending ≠ [] := by
  induction evts with
  | nil =>
      intro pending k h
      exact absurd h (by simp [checkAllBootAssets])
  | cons e es ih =>
      intro pending k h
      simp only [checkAllBootAssets] at h
      by_cases hp : checkStep pending e = []
      · rw [if_pos hp] at h
        obtain rfl : (1 : Nat) = k := Option.some.inj h
        refine ⟨le_refl 1, by simp, by simpa using hp, ?_⟩
        intro j h1 h2
        omega
      · rw [if_neg hp] at h
        obtain ⟨k2, hk2, rfl⟩ :
            ∃ k2, checkAllBootAssets (checkStep pending e) es = some k2 ∧ k = k2 + 1 := by
          rcases ho : checkAllBootAssets (checkStep pending e) es with _ | k2
          · rw [ho] at h
            simp at h
          · rw [ho] at h
            simp at h
            exact ⟨k2, rfl, h.symm⟩
        obtain ⟨ha, hb, hc, hd⟩ := ih (checkStep pending e) k2 hk2
        refine ⟨by omega, ?_, ?_, ?_⟩
        · simp only [List.length_cons]
          omega
        · simpa using hc
        · intro j hj1 hjk
          obtain ⟨j2, rfl⟩ : ∃ j2, j = j2 + 1 := ⟨j - 1, by omega⟩
          by_cases hj20 : j2 = 0
          · subst hj20
            simpa using hp
          · have h5 := hd j2 (by omega) (by omega)
            simpa using h5

lemma checkAllBootAssets_complete (evts : List String) :
    ∀ pending : List String, evts.foldl checkStep pending = [] → evts ≠ [] →
      ∃ k, checkAllBootAssets pending evts = some k := by
  induction evts with
  | nil =>
      intro pending _ hne
      exact absurd rfl hne
  | cons e es ih =>
      intro pending h _
      simp only [checkAllBootAssets]
      by_cases hp : checkStep pending e = []
      · rw [if_pos hp]
        exact ⟨1, rfl⟩
      · rw [if_neg hp]
        rcases es with _ | ⟨e2, es2⟩
        · rw [List.foldl_cons, List.foldl_nil] at h
          exact absurd h hp
        · obtain ⟨k, hk⟩ := ih (checkStep pending e) (by simpa using h) (by simp)
          exact ⟨k + 1, by rw [hk]; rfl⟩

/-! ## Claim C7: the boot-asset wait unblocks exactly at coverage -/

/-- Claim C7: for a non-empty duplicate-free required asset list and any event
sequence covering it, the wait unblocks (returns `some k`) exactly at the first
event after which every required asset has been reported — independent of the
arrival order — and a signal naming an asset outside the pending set leaves
the pending set unchanged. -/
theorem checkAllBootAssets_unblocks_at_cover
    (req evts : List String) (h1 : req ≠ []) (h2 : req.Nodup)
    (h3 : ∀ a ∈ req, a ∈ evts) :
    (∃ k, checkAllBootAssets req evts = some k ∧ 1 ≤ k ∧ k ≤ evts.length ∧
      (∀ a ∈ req, a ∈ evts.take k) ∧
      ∀ j, j < k → ¬ ∀ a ∈ req, a ∈ evts.take j) ∧
    ∀ (p : List String) (e : String), p.Nodup → e ∉ p → checkStep p e = p := by
  constructor
  case right =>
    intro p e _ hne
    exact checkStep_not_mem p e hne
  case left =>
  have hfold : ∀ j : Nat, (evts.take j).foldl checkStep req =
      req.filter (fun a => !((evts.take j).contains a)) :=
    fun j => foldl_checkStep_filter (evts.take j) req h2
  have hfull : evts.foldl checkStep req = [] := by
    rw [foldl_checkStep_filter evts req h2, List.filter_eq_nil_iff]
    intro a ha
    simp [h3 a ha]
  have hne : evts ≠ [] := by
    rcases req with _ | ⟨a, req2⟩
    · exact absurd rfl h1
    · have hmem := h3 a (List.mem_cons_self a req2)
      intro he
      rw [he] at hmem
      simp at hmem
  obtain ⟨k, hk⟩ := checkAllBootAssets_complete evts req hfull hne
  obtain ⟨ha, hb, hc, hd⟩ := checkAllBootAssets_sound evts req k hk
  refine ⟨k, hk, ha, hb, ?_, ?_⟩
  · rw [hfold k, List.filter_eq_nil_iff] at hc
    intro a haq
    have h5 := hc a haq
    simpa using h5
  · intro j hj hcov
    by_cases hj0 : j = 0
    · subst hj0
      rcases req with _ | ⟨a, req2⟩
      · exact h1 rfl
      · have h5 := hcov a (List.mem_cons_self a req2)
        simp at h5
    · have hdj := hd j (by omega) hj
      rw [hfold j] at hdj
      apply hdj
      rw [List.filter_eq_nil_iff]
      intro a haq
      simp [hcov a haq]

/-- Witness for C7: required set of two assets, events interleaving outside
names with the required ones in reversed order. -/
theorem checkAllBootAssets_unblocks_witness :
    ∃ k, checkAllBootAssets ["ubuntu/focal", "kernel-ga-22.04"]
        ["other-os", "kernel-ga-22.04", "ubuntu/focal", "late-event"] = some k ∧
      1 ≤ k ∧ k ≤ 4 ∧
      (∀ a ∈ ["ubuntu/focal", "kernel-ga-22.04"],
        a ∈ (["other-os", "kernel-ga-22.04", "ubuntu/focal", "late-event"].take k)) ∧
      ∀ j, j < k → ¬ ∀ a ∈ ["ubuntu/focal", "kernel-ga-22.04"],
        a ∈ (["other-os", "kernel-ga-22.04", "ubuntu/focal", "late-event"].take j) :=
  (checkAllBootAssets_unblocks_at_cover
    ["ubuntu/focal", "kernel-ga-22.04"]
    ["other-os", "kernel-ga-22.04", "ubuntu/focal", "late-event"]
    (by decide) (by decide) (by decide)).1

/-! ## Claim C8: the wait with an empty required set still demands one event -/

/-- Claim C8 evaluation: with an empty required asset list — the
installed-OS variant — the Go loop still performs one receive before its
emptiness check: with no boot-asset event it stays blocked (`none`), and the
first event, whatever its name, unblocks it; consequently a DeployInstalledOS
run whose environment delivers no boot-asset event fails to complete,
blocking at the asset wait. -/
theorem checkAllBootAssets_empty_requires_event :
    checkAllBootAssets [] [] = none ∧
    checkAllBootAssets [] ["some-unrelated-asset"] = some 1 ∧
    (DeployInstalledOS
      { powerCycle := .ok (), leases := [⟨"m1", "10.0.0.1", "aa:aa", true⟩],
        bootAssetEvents := [], cloudInitDownload := .ok (), cloudInitFinished := .ok () }
      { SystemID := "m1", PowerParams := ⟨"ipmi"⟩,
        DeployParams := deployParamsExample NodeStatusReady }).1 = .error .blocked := by
  refine ⟨rfl, rfl, rfl⟩

/-! ## Claim C1: the success path issues exactly one deployed status update -/

lemma deployEphemeralOS_ok (env : EphemeralEnv) (input : DeployEphemeralOSInput)
    (h1 : env.powerOn = .ok ()) (h2 : env.powerCycle = .ok ())
    (h3 : checkForBootInterfaceLease env.leases = .ok ())
    (h4 : checkAllBootAssetsE
      [input.DeployParams.Osystem ++ "/" ++ input.DeployParams.DistroSeries,
       input.DeployParams.HWEKernel] env.bootAssetEvents = .ok ())
    (h5 : env.curtinDownload = .ok ()) (h6 : env.curtinFinished = .ok ()) :
    (DeployEphemeralOS env input).1 = .ok () := by
  unfold DeployEphemeralOS
  repeat' split
  all_goals simp_all

lemma deployInstalledOS_ok (env : InstalledEnv) (input : DeployInstalledOSInput)
    (h2 : env.powerCycle = .ok ())
    (h3 : checkForBootInterfaceLease env.leases = .ok ())
    (h4 : checkAllBootAssetsE [] env.bootAssetEvents = .ok ())
    (h5 : env.cloudInitDownload = .ok ()) (h6 : env.cloudInitFinished = .ok ()) :
    (DeployInstalledOS env input).1 = .ok () := by
  unfold DeployInstalledOS
  repeat' split
  all_goals simp_all

lemma isPower_not_update {c : Call} (h : c.isPower = true) :
    c.isUpdateNodeStatus = false := by
  cases c <;> simp_all [Call.isPower, Call.isUpdateNodeStatus]

/-- Claim C1: when set-deploy-params reports status ready or allocated, the
KVM/VM-host guard passes, the deploy is ephemeral or the disk check reports
not diskless, and every remote operation, sub-flow and event wait succeeds,
Deploy returns success and its trace ends in exactly one
update-node-status(deployed) call, with no other node-status update anywhere
in the run. -/
theorem deploy_success_single_deployed_update
    (env : DeployEnv) (input : DeployInput)
    (pp : GetPowerParamsResult) (ui : GetUserInfoResult) (dp : SetDeployParamsResult)
    (pr : ProposeIPResult) (res : CheckIPResult)
    (hpp : env.getPowerParams = .ok pp)
    (hui : env.getUserInfo = .ok ui)
    (hguard : ((input.InstallKVM || input.RegisterVMHost) && !ui.IsSuperuser) = false)
    (hdisk : input.EphemeralDeploy = true ∨ env.checkDiskStatus = .ok ⟨false⟩)
    (hsd : env.setDeployParams = .ok dp)
    (hst : dp.Status = NodeStatusReady ∨ dp.Status = NodeStatusAllocated)
    (hpr : env.alloc.proposeIP = .ok pr)
    (hcip : env.alloc.checkIP = .ok res)
    (hclaim : env.alloc.claimIPs = .ok ())
    (hpO : env.ephemeral.powerOn = .ok ())
    (hpC : env.ephemeral.powerCycle = .ok ())
    (hlease : checkForBootInterfaceLease env.ephemeral.leases = .ok ())
    (hassets : checkAllBootAssetsE [dp.Osystem ++ "/" ++ dp.DistroSeries, dp.HWEKernel]
      env.ephemeral.bootAssetEvents = .ok ())
    (hcd : env.ephemeral.curtinDownload = .ok ())
    (hcf : env.ephemeral.curtinFinished = .ok ())
    (hbo : env.setBootOrder = .ok ())
    (hipC : env.installed.powerCycle = .ok ())
    (hilease : checkForBootInterfaceLease env.installed.leases = .ok ())
    (hiassets : checkAllBootAssetsE [] env.installed.bootAssetEvents = .ok ())
    (hicd : env.installed.cloudInitDownload = .ok ())
    (hicf : env.installed.cloudInitFinished = .ok ())
    (hupd : env.updateNodeStatus = .ok ()) :
    (Deploy env input).1 = .ok () ∧
    ∃ t, (Deploy env input).2 = t ++ [Call.updateNodeStatus "" NodeStatusDeployed] ∧
      ∀ c ∈ t, c.isUpdateNodeStatus = false := by
  have hstat : ¬(dp.Status ≠ NodeStatusReady ∧ dp.Status ≠ NodeStatusAllocated) := by
    rcases hst with h | h <;> simp [h]
  have hA : AllocateIPs env.alloc ⟨input.SystemID⟩ =
      (.ok (), [Call.proposeIP input.SystemID, Call.checkIP pr.IPs,
        Call.claimIPs ""
          (pr.IPs.map fun ip => if ip ∈ res.IPs then none else some ip) pr.MACs]) := by
    unfold AllocateIPs
    simp [hpr, hcip, hclaim]
  have hE1 : (DeployEphemeralOS env.ephemeral ⟨input.SystemID, pp, dp⟩).1 = .ok () :=
    deployEphemeralOS_ok _ _ hpO hpC hlease hassets hcd hcf
  have hEmem := deployEphemeralOS_trace_power env.ephemeral ⟨input.SystemID, pp, dp⟩
  rcases hE : DeployEphemeralOS env.ephemeral ⟨input.SystemID, pp, dp⟩ with ⟨rE, tE⟩
  rw [hE] at hE1 hEmem
  simp only at hE1 hEmem
  subst hE1
  have hI1 : (DeployInstalledOS env.installed ⟨input.SystemID, pp, dp⟩).1 = .ok () :=
    deployInstalledOS_ok _ _ hipC hilease hiassets hicd hicf
  have hImem := deployInstalledOS_trace_power env.installed ⟨input.SystemID, pp, dp⟩
  rcases hI : DeployInstalledOS env.installed ⟨input.SystemID, pp, dp⟩ with ⟨rI, tI⟩
  rw [hI] at hI1 hImem
  simp only at hI1 hImem
  subst hI1
  by_cases heph : input.EphemeralDeploy = true
  · have hDep : Deploy env input = (.ok (),
        ([Call.getPowerParams input.SystemID, Call.getUserInfo input.RequestingUserID,
          Call.setDeployParams input, Call.proposeIP input.SystemID, Call.checkIP pr.IPs,
          Call.claimIPs ""
            (pr.IPs.map fun ip => if ip ∈ res.IPs then none else some ip) pr.MACs] ++ tE)
          ++ [Call.updateNodeStatus "" NodeStatusDeployed]) := by
      unfold Deploy
      simp [hpp, hui, hguard, heph, hsd, hstat, hA, hE, hupd]
    refine ⟨by rw [hDep], ?_⟩
    refine ⟨[Call.getPowerParams input.SystemID, Call.getUserInfo input.RequestingUserID,
      Call.setDeployParams input, Call.proposeIP input.SystemID, Call.checkIP pr.IPs,
      Call.claimIPs ""
        (pr.IPs.map fun ip => if ip ∈ res.IPs then none else some ip) pr.MACs] ++ tE,
      by rw [hDep], ?_⟩
    rw [List.forall_mem_append]
    refine ⟨by simp [Call.isUpdateNodeStatus], ?_⟩
    intro c hc
    exact isPower_not_update (hEmem c hc)
  · have heph2 : input.EphemeralDeploy = false := by
      revert heph; cases input.EphemeralDeploy <;> simp
    have hdisk2 : env.checkDiskStatus = .ok ⟨false⟩ := hdisk.resolve_left heph
    have hDep : Deploy env input = (.ok (),
        (([Call.getPowerParams input.SystemID, Call.getUserInfo input.RequestingUserID,
           Call.checkDiskStatus input.SystemID,
           Call.setDeployParams input, Call.proposeIP input.SystemID, Call.checkIP pr.IPs,
           Call.claimIPs ""
             (pr.IPs.map fun ip => if ip ∈ res.IPs then none else some ip) pr.MACs] ++ tE)
          ++ Call.setBootOrder input.SystemID false :: tI)
          ++ [Call.updateNodeStatus "" NodeStatusDeployed]) := by
      unfold Deploy
      simp [hpp, hui, hguard, heph2, hdisk2, hsd, hstat, hA, hE, hbo, hI, hupd]
    refine ⟨by rw [hDep], ?_⟩
    refine ⟨([Call.getPowerParams input.SystemID, Call.getUserInfo input.RequestingUserID,
      Call.checkDiskStatus input.SystemID,
      Call.setDeployParams input, Call.proposeIP input.SystemID, Call.checkIP pr.IPs,
      Call.claimIPs ""
        (pr.IPs.map fun ip => if ip ∈ res.IPs then none else some ip) pr.MACs] ++ tE)
      ++ Call.setBootOrder input.SystemID false :: tI,
      by rw [hDep], ?_⟩
    rw [List.forall_mem_append, List.forall_mem_append]
    refine ⟨⟨by simp [Call.isUpdateNodeStatus], ?_⟩, ?_⟩
    · intro c hc
      exact isPower_not_update (hEmem c hc)
    · intro c hc
      rcases List.mem_cons.mp hc with rfl | hc2
      · rfl
      · exact isPower_not_update (hImem c hc2)

/-- Witness for C1: a concrete non-ephemeral happy-path run in which every
remote operation and event wait succeeds. -/
theorem deploy_success_single_deployed_update_witness :
    (Deploy (deployEnvExample true false NodeStatusReady)
      (deployInputExample false false)).1 = .ok () ∧
    ∃ t, (Deploy (deployEnvExample true false NodeStatusReady)
        (deployInputExample false false)).2 =
        t ++ [Call.updateNodeStatus "" NodeStatusDeployed] ∧
      ∀ c ∈ t, c.isUpdateNodeStatus = false :=
  deploy_success_single_deployed_update
    (deployEnvExample true false NodeStatusReady) (deployInputExample false false)
    ⟨"ipmi"⟩ ⟨true⟩ (deployParamsExample NodeStatusReady)
    { SystemID := "m1", IPs := ["10.0.0.1", "10.0.0.2"], MACs := ["aa:aa", "bb:bb"] }
    { IPs := ["10.0.0.2"] }
    rfl rfl rfl (Or.inr rfl) rfl (Or.inl rfl) rfl rfl rfl rfl rfl rfl rfl rfl rfl rfl
    rfl rfl rfl rfl rfl rfl
